import Mathlib

/-!
Verification development for the `python-pushover-open-client` package.

The definitions below are a shallow embedding of
`src/python_pushover_open_client/__init__.py`.  Python dicts are modelled as
association lists (`List (κ × α)`) with lookup/insert/update operations that
mirror `d[k]`, `d[k] = v` and `d.update(...)`; Python exceptions are modelled
with `Except PyErr`; the HTTP transport is external, so every network-backed
method takes the parsed reply of its single request as an explicit argument
and, where the outgoing payload matters, returns the payload it sent.
Python truthiness tests on optional/string/int arguments (`if not x:`) are
modelled by the `pyOr` / `pyFalsyStrOpt` / `pyFalsyIntOpt` helpers.
-/

namespace Pushover

/-- A JSON-ish value as stored in the dicts the client manipulates. -/
inductive Value where
  | null
  | str (s : String)
  | int (n : Int)
  | bool (b : Bool)
deriving DecidableEq, Repr

/-- The Python exceptions the embedded code can raise. -/
inductive PyErr where
  | keyError (k : String)
  | indexError
  | attributeError
  | typeError
  | valueError
  | exception (msg : String)
deriving DecidableEq, Repr

/-- Lookup in an association list: Python `d.get(k)` / the test `k in d`. -/
def dget {κ α : Type} [DecidableEq κ] : List (κ × α) → κ → Option α
  | [], _ => none
  | (k₀, v) :: rest, k => if k₀ = k then some v else dget rest k

/-- Insertion into an association list: Python `d[k] = v` (overwrites the
existing binding in place, otherwise appends). -/
def dset {κ α : Type} [DecidableEq κ] : List (κ × α) → κ → α → List (κ × α)
  | [], k, v => [(k, v)]
  | (k₀, v₀) :: rest, k, v =>
      if k₀ = k then (k, v) :: rest else (k₀, v₀) :: dset rest k v

/-- Python `d.update(other)`: sequentially insert every binding of `other`. -/
def dupdate {κ α : Type} [DecidableEq κ] : List (κ × α) → List (κ × α) → List (κ × α)
  | d, [] => d
  | d, (k, v) :: rest => dupdate (dset d k v) rest

/-- Python `d[k]`, raising `KeyError` when the key is absent. -/
def dictGetItem {κ α : Type} [DecidableEq κ] (d : List (κ × α)) (k : κ)
    (name : String) : Except PyErr α :=
  match dget d k with
  | some v => Except.ok v
  | none => Except.error (PyErr.keyError name)

/-- Python `l[i]`, raising `IndexError` when out of range. -/
def listGetItem {α : Type} (l : List α) (i : Nat) : Except PyErr α :=
  match l[i]? with
  | some a => Except.ok a
  | none => Except.error PyErr.indexError

/-- A Python dict with string keys, as used for notifications, payloads and
the credentials file. -/
abbrev Dict := List (String × Value)

/-- Python truthiness of an optional string argument (`None` and `""` are
falsy). -/
def pyFalsyStrOpt : Option String → Bool
  | none => true
  | some s => s == ""

/-- Source `if not x: x = dflt` for an optional string argument. -/
def pyOr (o : Option String) (dflt : String) : String :=
  match o with
  | none => dflt
  | some s => if s = "" then dflt else s

/-- Python truthiness of an optional int argument (`None` and `0` are falsy). -/
def pyFalsyIntOpt : Option Int → Bool
  | none => true
  | some i => i == 0

/-- The whitespace characters recognised by Python `str.split()`. -/
def pyIsSpace (c : Char) : Bool :=
  c == ' ' || c == '\t' || c == '\n' || c == '\r' || c == '\x0b' || c == '\x0c'

/-- Helper for `pySplit`: accumulates the current word (reversed) while
scanning the characters. -/
def splitWsAux : List Char → List Char → List String
  | [], acc => if acc.isEmpty then [] else [String.mk acc.reverse]
  | c :: rest, acc =>
    if pyIsSpace c then
      if acc.isEmpty then splitWsAux rest []
      else String.mk acc.reverse :: splitWsAux rest []
    else splitWsAux rest (c :: acc)

/-- Python `s.split()`: split on runs of whitespace, discarding empty
tokens. -/
def pySplit (s : String) : List String :=
  splitWsAux s.data []

/-- Source `v.split()` on a dict value: only strings have a `split` method, `None`
(and ints) raise `AttributeError`. -/
def valueSplit : Value → Except PyErr (List String)
  | Value.str s => Except.ok (pySplit s)
  | _ => Except.error PyErr.attributeError

/-- A server error payload: a list of messages or a field-keyed mapping. -/
inductive Errors where
  | list (msgs : List String)
  | fieldMap (m : List (String × List String))
deriving DecidableEq, Repr

/-! ### Module-level helpers of the source file -/

/-- The moment `datetime.datetime.now()` returns, as consumed by
`strftime("%Y%m%d_%H%M%S")`. -/
structure PyDateTime where
  year : Nat
  month : Nat
  day : Nat
  hour : Nat
  minute : Nat
  second : Nat
deriving DecidableEq, Repr

/-- Decimal representation of a natural number (the digits of `n` base 10,
most significant first, as characters). -/
def decimalRepr (n : Nat) : String :=
  if n = 0 then "0"
  else String.mk ((Nat.digits 10 n).reverse.map (fun d => Char.ofNat (48 + d)))

/-- Zero-padding to two characters, as `strftime` does for `%m %d %H %M %S`. -/
def pad2 (n : Nat) : String :=
  if n < 10 then "0" ++ decimalRepr n else decimalRepr n

/-- Source `now.strftime("%Y%m%d_%H%M%S")`. -/
def strftimeCompact (now : PyDateTime) : String :=
  decimalRepr now.year ++ pad2 now.month ++ pad2 now.day ++ "_"
    ++ pad2 now.hour ++ pad2 now.minute ++ pad2 now.second

/-- Source `generate_new_device_name()`: `"python-" + now.strftime("%Y%m%d_%H%M%S")`. -/
def generate_new_device_name (now : PyDateTime) : String :=
  "python-" ++ strftimeCompact now

/-- The vendor's allowed device-name alphabet: `[A-Za-z0-9_-]`. -/
def allowedDeviceNameChar (c : Char) : Bool :=
  ('A' ≤ c && c ≤ 'Z') || ('a' ≤ c && c ≤ 'z') || ('0' ≤ c && c ≤ '9')
    || c == '_' || c == '-'

/-- The device-name defaulting at the head of `register_device`:
`if not device_name: device_name = generate_new_device_name()`. -/
def register_device_effective_name (device_name : Option String)
    (now : PyDateTime) : String :=
  pyOr device_name (generate_new_device_name now)

/-- Source `get_notification_model`: the fixed dict of all twenty wire keys,
initialised to `None`. -/
def notification_dict : Dict :=
  [("id", Value.null),
   ("id_str", Value.null),
   ("umid", Value.null),
   ("umid_str", Value.null),
   ("title", Value.null),
   ("message", Value.null),
   ("app", Value.null),
   ("aid", Value.null),
   ("aid_str", Value.null),
   ("icon", Value.null),
   ("date", Value.null),
   ("queued_date", Value.null),
   ("dispatched_date", Value.null),
   ("priority", Value.null),
   ("sound", Value.null),
   ("url", Value.null),
   ("url_title", Value.null),
   ("acked", Value.null),
   ("receipt", Value.null),
   ("html", Value.null)]

/-- The twenty keys of `notification_dict`, in source order. -/
def notification_keys : List String :=
  ["id", "id_str", "umid", "umid_str", "title", "message", "app", "aid",
   "aid_str", "icon", "date", "queued_date", "dispatched_date", "priority",
   "sound", "url", "url_title", "acked", "receipt", "html"]

/-- Source `get_notification_model(**kwargs)`: `notification_dict.update(**kwargs)`. -/
def get_notification_model (kwargs : Dict) : Dict :=
  dupdate notification_dict kwargs

/-! ### The session manager `PushoverOpenClient` -/

/-- Parsed JSON reply of the login endpoint, together with the HTTP status
code of the response.  Fields absent from the reply body are `none`; reading
them raises `KeyError`, as `json.loads(...)[key]` would. -/
structure LoginData where
  status_code : Nat
  status : Int
  secret : Option String
  errors : Option Errors
deriving DecidableEq, Repr

/-- Parsed JSON reply of the message-download endpoint. -/
structure DownloadData where
  status : Int
  errors : Option Errors
  messages : Option (List Dict)
deriving DecidableEq, Repr

/-- Parsed JSON reply of the `update_highest_message` (delete) endpoint. -/
structure ApiData where
  status : Int
  errors : Option Errors
deriving DecidableEq, Repr

/-- The result of `download_messages`: Python `False` or the list of
downloaded notification dicts. -/
inductive DownloadResult where
  | failure
  | messages (msgs : List Dict)
deriving DecidableEq, Repr

/-- The payload posted by `delete_all_messages`
(`_get_delete_messages_payload`); `message` is `none` when the computed
`last_message_id` was Python `False`. -/
structure DeletePayload where
  message : Option Int
  secret : String
deriving DecidableEq, Repr

/-- The mutable state of a `PushoverOpenClient` instance.  Defaults are the
class-attribute initial values. -/
structure PushoverOpenClient where
  email : String := ""
  password : String := ""
  device_id : String := ""
  secret : String := ""
  twofa : Option String := none
  needs_twofa : Bool := false
  messages : List (Int × Dict) := []
  highest_message_id : Option Int := none
  login_response_data : Option LoginData := none
  login_errors : Option Errors := none
  message_downloading_response_data : Option DownloadData := none
  message_downloading_errors : Option Errors := none
  update_highest_message_response_data : Option ApiData := none
  update_highest_message_errors : Option Errors := none
deriving DecidableEq, Repr

namespace PushoverOpenClient

/-- Source `_get_credentials_dict`: only the currently non-empty fields are
included, in source order. -/
def _get_credentials_dict (self : PushoverOpenClient) : Dict :=
  let credentials_dict : Dict := []
  let credentials_dict :=
    if self.email ≠ "" then dset credentials_dict "email" (Value.str self.email)
    else credentials_dict
  let credentials_dict :=
    if self.password ≠ "" then
      dset credentials_dict "password" (Value.str self.password)
    else credentials_dict
  let credentials_dict :=
    if self.secret ≠ "" then
      dset credentials_dict "secret" (Value.str self.secret)
    else credentials_dict
  let credentials_dict :=
    if self.device_id ≠ "" then
      dset credentials_dict "device_id" (Value.str self.device_id)
    else credentials_dict
  credentials_dict

/-- Source `write_credentials_file`: the JSON object written to disk is exactly
`_get_credentials_dict()`; the file content is the return value here. -/
def write_credentials_file (self : PushoverOpenClient) : Dict :=
  self._get_credentials_dict

/-- Source `load_from_credentials_file`.  The file system is external: `file` is
`none` when the file does not exist (the code raises), otherwise the parsed
JSON object.  `email` and `password` are read unconditionally (`KeyError`
when absent); `device_id` and `secret` are read only when present, so absent
optional keys never overwrite existing fields.  (Assigning a non-string value
to a string-typed field is modelled as `TypeError`.) -/
def load_from_credentials_file (self : PushoverOpenClient)
    (file : Option Dict) : Except PyErr PushoverOpenClient := do
  let credentials ← match file with
    | none => Except.error (PyErr.exception "Credentials file not found. Please create.")
    | some d => Except.ok d
  let email ← match dget credentials "email" with
    | some (Value.str e) => Except.ok e
    | some _ => Except.error PyErr.typeError
    | none => Except.error (PyErr.keyError "email")
  let password ← match dget credentials "password" with
    | some (Value.str p) => Except.ok p
    | some _ => Except.error PyErr.typeError
    | none => Except.error (PyErr.keyError "password")
  let self := { self with email := email, password := password }
  let self ← match dget credentials "device_id" with
    | some (Value.str d) => Except.ok { self with device_id := d }
    | some _ => Except.error PyErr.typeError
    | none => Except.ok self
  let self ← match dget credentials "secret" with
    | some (Value.str s) => Except.ok { self with secret := s }
    | some _ => Except.error PyErr.typeError
    | none => Except.ok self
  pure self

/-- Source `login`.  `data` is the parsed reply (plus HTTP status code) of the
single POST the method performs; `rewrite_creds_file` only triggers the
external file write, which does not change the instance state. -/
def login (self : PushoverOpenClient)
    (email password twofa : Option String) (_rewrite_creds_file : Bool)
    (data : LoginData) : Except PyErr (PushoverOpenClient × Option String) := do
  let _email := pyOr email self.email
  let _password := pyOr password self.password
  if self.needs_twofa && pyFalsyStrOpt twofa && pyFalsyStrOpt self.twofa then
    pure (self, none)
  else
    let _twofa : Option String :=
      if self.needs_twofa then
        if ¬ pyFalsyStrOpt twofa then twofa else self.twofa
      else twofa
    let self := { self with login_response_data := none, login_errors := none }
    let self := { self with login_response_data := some data }
    if data.status_code = 412 then
      pure ({ self with needs_twofa := true }, none)
    else
      let self := { self with needs_twofa := false }
      if data.status ≠ 1 then do
        let errors ← match data.errors with
          | some e => Except.ok e
          | none => Except.error (PyErr.keyError "errors")
        pure ({ self with login_errors := some errors }, none)
      else do
        let secret ← match data.secret with
          | some s => Except.ok s
          | none => Except.error (PyErr.keyError "secret")
        let self := { self with secret := secret }
        pure (self, some secret)

/-- The merge loop of `download_messages`:
`for message in messages: self.messages.update({message["id"]: message})`.
A message without an `"id"` key raises `KeyError`; a non-int id is modelled
as `TypeError` (the store is int-keyed). -/
def mergeMessages : List (Int × Dict) → List Dict → Except PyErr (List (Int × Dict))
  | store, [] => Except.ok store
  | store, message :: rest => do
    let idv ← dictGetItem message "id" "id"
    match idv with
    | Value.int message_id => mergeMessages (dset store message_id message) rest
    | _ => Except.error PyErr.typeError

/-- Source `download_messages`.  `data` is the parsed reply of the single GET. -/
def download_messages (self : PushoverOpenClient)
    (secret device_id : Option String) (data : DownloadData) :
    Except PyErr (PushoverOpenClient × DownloadResult) := do
  let _secret := pyOr secret self.secret
  let _device_id := pyOr device_id self.device_id
  let self := { self with message_downloading_response_data := none,
                          message_downloading_errors := none }
  let self := { self with message_downloading_response_data := some data }
  if data.status ≠ 1 then do
    let errors ← match data.errors with
      | some e => Except.ok e
      | none => Except.error (PyErr.keyError "errors")
    pure ({ self with message_downloading_errors := some errors },
          DownloadResult.failure)
  else do
    let messages ← match data.messages with
      | some m => Except.ok m
      | none => Except.error (PyErr.keyError "messages")
    let merged ← mergeMessages self.messages messages
    pure ({ self with messages := merged }, DownloadResult.messages messages)

/-- Source `max(...)` over a Python iterable of ints (left fold, raises `ValueError`
on an empty iterable; in `get_highest_message_id` emptiness is guarded). -/
def pyMax : List Int → Option Int
  | [] => none
  | x :: xs => some (xs.foldl max x)

/-- A placeholder download reply for call sites that pass
`redownload=False`, where the download argument is never consulted. -/
def no_download : DownloadData :=
  { status := 1, errors := none, messages := none }

/-- Source `get_highest_message_id`.  Returns `none` for Python `False` (empty
store), otherwise the maximum store key, also recorded in
`highest_message_id`.  When `redownload` is true a download is performed
first, consuming `data`. -/
def get_highest_message_id (self : PushoverOpenClient) (redownload : Bool)
    (data : DownloadData) :
    Except PyErr (PushoverOpenClient × Option Int) := do
  let self ←
    if redownload then do
      let (self, _) ← self.download_messages none none data
      pure self
    else pure self
  if self.messages.isEmpty then
    pure (self, none)
  else
    match pyMax (self.messages.map Prod.fst) with
    | none => Except.error PyErr.valueError
    | some highest_message_id =>
      let self := { self with highest_message_id := some highest_message_id }
      pure (self, self.highest_message_id)

/-- Source `_get_delete_messages_payload`. -/
def _get_delete_messages_payload (message : Option Int) (secret : String) :
    DeletePayload :=
  { message := message, secret := secret }

/-- Source `delete_all_messages`.  `data` is the parsed reply of the single POST;
the payload actually posted is returned alongside the Python return value.
Note the method never touches the local `messages` store. -/
def delete_all_messages (self : PushoverOpenClient)
    (device_id secret : Option String) (last_message_id : Option Int)
    (data : ApiData) :
    Except PyErr (PushoverOpenClient × Bool × DeletePayload) := do
  let _device_id := pyOr device_id self.device_id
  let secret := pyOr secret self.secret
  let (self, last_message_id) ←
    if pyFalsyIntOpt last_message_id then
      self.get_highest_message_id false no_download
    else
      pure (self, last_message_id)
  let self := { self with update_highest_message_response_data := none,
                          update_highest_message_errors := none }
  let delete_messages_payload :=
    _get_delete_messages_payload last_message_id secret
  let self := { self with update_highest_message_response_data := some data }
  if data.status ≠ 1 then do
    let errors ← match data.errors with
      | some e => Except.ok e
      | none => Except.error (PyErr.keyError "errors")
    pure ({ self with update_highest_message_errors := some errors },
          false, delete_messages_payload)
  else
    pure (self, true, delete_messages_payload)

/-- Source `PUSHOVER_WEBSOCKET_LOGIN.format(device_id=..., secret=...)`. -/
def pushover_websocket_login (device_id secret : String) : String :=
  "login:" ++ device_id ++ ":" ++ secret ++ "\n"

/-- Source `get_websocket_login_string`.  Note the source checks the (possibly
argument-supplied) local variables but formats with the instance fields. -/
def get_websocket_login_string (self : PushoverOpenClient)
    (device_id secret : Option String) : Except PyErr String :=
  let device_id := pyOr device_id self.device_id
  let secret := pyOr secret self.secret
  if device_id = "" ∨ secret = "" then
    Except.error (PyErr.exception "Credentials are not loaded.")
  else
    Except.ok (pushover_websocket_login self.device_id self.secret)

end PushoverOpenClient

/-! ### The realtime dispatcher `PushoverOpenClientRealTime` -/

/-- A shell command line: a string or an argument list
(`register_shell_command_alias` accepts both). -/
inductive CommandLine where
  | str (s : String)
  | args (l : List String)
deriving DecidableEq, Repr

/-- One handler invocation performed while processing a notification.  The
constructors record exactly the arguments the Python code passes. -/
inductive Call where
  | command_function (command : String) (arguments : List String) (raw_data : Dict)
  | command_parser_call (command : String) (raw_data : Dict)
  | shell_command (arguments_str : String)
  | shell_alias (alias_name : String) (command_line : CommandLine)
  | parser_call (name : String) (raw_data : Dict)
deriving DecidableEq, Repr

/-- The five module-level dispatch registries, by registered name (dicts keep
insertion order; the handler functions themselves are opaque, so only the
names are modelled). -/
structure Registries where
  command_functions_registry : List String
  command_parsers_registry : List String
  parsers_registry : List String
  shell_commands_registry : List String
  shell_command_aliases_registry : List (String × CommandLine)
deriving DecidableEq, Repr

namespace PushoverOpenClientRealTime

/-- Source `process_command_function`: re-splits the message, takes the first word
and calls the registered function with the words as positional arguments and
`raw_data` as keyword argument.  An unregistered command raises `KeyError`
(in `process_message` the call is guarded). -/
def process_command_function (reg : Registries) (raw_data : Dict) :
    Except PyErr Call := do
  let mv ← dictGetItem raw_data "message" "message"
  let arguments ← valueSplit mv
  let command ← listGetItem arguments 0
  if command ∈ reg.command_functions_registry then
    pure (Call.command_function command arguments raw_data)
  else
    Except.error (PyErr.keyError command)

/-- Source `process_parser_command`: like `process_command_function` but the
registered function receives only `raw_data`. -/
def process_parser_command (reg : Registries) (raw_data : Dict) :
    Except PyErr Call := do
  let mv ← dictGetItem raw_data "message" "message"
  let arguments ← valueSplit mv
  let command ← listGetItem arguments 0
  if command ∈ reg.command_parsers_registry then
    pure (Call.command_parser_call command raw_data)
  else
    Except.error (PyErr.keyError command)

/-- The unconditional fan-out over `PARSERS_REGISTRY` (source name
`process_parser`): every registered function receives `raw_data`. -/
def process_parsers (reg : Registries) (raw_data : Dict) : List Call :=
  reg.parsers_registry.map (fun name => Call.parser_call name raw_data)

/-- Source `process_shell_command`: passes the whole message text to the shell. -/
def process_shell_command (raw_data : Dict) : Except PyErr Call := do
  let mv ← dictGetItem raw_data "message" "message"
  match mv with
  | Value.str arguments_str => pure (Call.shell_command arguments_str)
  | _ => Except.error PyErr.typeError

/-- Source `process_shell_alias`: the first word selects the registered command
line, which is executed via the shell. -/
def process_shell_alias (reg : Registries) (raw_data : Dict) :
    Except PyErr Call := do
  let mv ← dictGetItem raw_data "message" "message"
  let arguments ← valueSplit mv
  let alias_name ← listGetItem arguments 0
  match dget reg.shell_command_aliases_registry alias_name with
  | some command_line => pure (Call.shell_alias alias_name command_line)
  | none => Except.error (PyErr.keyError alias_name)

/-- Source `process_message`: normalise the record, tokenize the `message` field,
then run the independent (non-exclusive) registry checks in source order and
finally the unconditional parsers.  The result is the list of handler
invocations, in order. -/
def process_message (reg : Registries) (message : Dict) :
    Except PyErr (List Call) := do
  let raw_data := get_notification_model message
  let mv ← dictGetItem raw_data "message" "message"
  let arguments ← valueSplit mv
  let first_word ← listGetItem arguments 0
  let command := first_word
  let alias_name := first_word
  let calls₁ ←
    if command ∈ reg.command_functions_registry then do
      let c ← process_command_function reg raw_data
      pure [c]
    else pure []
  let calls₂ ←
    if command ∈ reg.command_parsers_registry then do
      let c ← process_parser_command reg raw_data
      pure [c]
    else pure []
  let calls₃ ←
    if command ∈ reg.shell_commands_registry then do
      let c ← process_shell_command raw_data
      pure [c]
    else pure []
  let calls₄ ←
    if (dget reg.shell_command_aliases_registry alias_name).isSome then do
      let c ← process_shell_alias reg raw_data
      pure [c]
    else pure []
  let calls₅ := process_parsers reg raw_data
  pure (calls₁ ++ calls₂ ++ calls₃ ++ calls₄ ++ calls₅)

/-- The five reactions of `pushover_websocket_server_commands`, named after
the methods they dispatch to. -/
inductive WsReaction where
  | message_keep_alive
  | message_do_sync
  | message_reload_request
  | message_error_permanent
  | message_error
deriving DecidableEq, Repr

/-- The `pushover_websocket_server_commands` dispatch table built in
`__init__`. -/
def pushover_websocket_server_commands : List (String × WsReaction) :=
  [("#", WsReaction.message_keep_alive),
   ("!", WsReaction.message_do_sync),
   ("R", WsReaction.message_reload_request),
   ("E", WsReaction.message_error_permanent),
   ("A", WsReaction.message_error)]

/-- Module constant `DEBUG`. -/
def DEBUG : Bool := false

/-- The module-level meaning table (its values; consulted only under
`DEBUG`). -/
def websocket_server_messages_meaning : List (String × String) :=
  [("#", "Keep-alive packet, no response needed."),
   ("!", "A new message has arrived; you should perform a sync."),
   ("R", "Reload request; you should drop your connection and re-connect."),
   ("E", "Error; a permanent problem occured and you should not automatically re-connect."),
   ("A", "Error; the device logged in from another session and this session is being closed.")]

/-- Source `_on_message`: look the frame up in the dispatch table and invoke the
mapped method; frames outside the table are ignored.  The result is the list
of reactions dispatched (the session-manager and registry effects happen
inside those methods, so an empty list means no session-manager call, no
registry dispatch and no state change).  Under `DEBUG` the meaning table is
also indexed, which would raise `KeyError` for unknown frames. -/
def _on_message (message : String) : Except PyErr (List WsReaction) :=
  let fired :=
    match dget pushover_websocket_server_commands message with
    | some reaction => [reaction]
    | none => []
  if DEBUG then
    match dget websocket_server_messages_meaning message with
    | some _ => Except.ok fired
    | none => Except.error (PyErr.keyError message)
  else
    Except.ok fired

end PushoverOpenClientRealTime

end Pushover

/-! ## Lemmas about the dict model -/

namespace Pushover

theorem exceptBind_ok {ε α β : Type} (a : α) (f : α → Except ε β) :
    (Except.ok a : Except ε α) >>= f = f a := rfl

theorem exceptBind_error {ε α β : Type} (e : ε) (f : α → Except ε β) :
    (Except.error e : Except ε α) >>= f = Except.error e := rfl

theorem exceptPure_def {ε α : Type} (a : α) :
    (pure a : Except ε α) = Except.ok a := rfl

theorem dget_dset_self {κ α : Type} [DecidableEq κ] (d : List (κ × α)) (k : κ) (v : α) :
    dget (dset d k v) k = some v := by
  induction d with
  | nil => simp [dset, dget]
  | cons kv rest ih =>
    obtain ⟨k₀, v₀⟩ := kv
    by_cases h : k₀ = k
    · subst h
      simp [dset, dget]
    · simp [dset, dget, h, ih]

theorem dget_dset_ne {κ α : Type} [DecidableEq κ] (d : List (κ × α)) (k k₁ : κ) (v : α)
    (h : k₁ ≠ k) : dget (dset d k v) k₁ = dget d k₁ := by
  have hkk : ¬ k = k₁ := fun h₁ => h h₁.symm
  induction d with
  | nil => simp [dset, dget, hkk]
  | cons kv rest ih =>
    obtain ⟨k₀, v₀⟩ := kv
    by_cases h₀ : k₀ = k
    · subst h₀
      simp [dset, dget, hkk]
    · simp only [dset, if_neg h₀]
      by_cases h₁ : k₀ = k₁
      · simp [dget, h₁]
      · simp [dget, h₁, ih]

theorem dget_eq_none_of_not_mem_keys {κ α : Type} [DecidableEq κ]
    (l : List (κ × α)) (k : κ) (h : k ∉ l.map Prod.fst) : dget l k = none := by
  induction l with
  | nil => rfl
  | cons kv rest ih =>
    obtain ⟨k₀, v₀⟩ := kv
    simp only [List.map_cons, List.mem_cons] at h
    push_neg at h
    have h₀ : ¬ k₀ = k := fun h₁ => h.1 h₁.symm
    simp [dget, h₀, ih h.2]

theorem dget_dupdate {κ α : Type} [DecidableEq κ] (d new : List (κ × α)) (k : κ)
    (h : (new.map Prod.fst).Nodup) :
    dget (dupdate d new) k =
      (match dget new k with
       | some v => some v
       | none => dget d k) := by
  induction new generalizing d with
  | nil => simp [dupdate, dget]
  | cons kv rest ih =>
    obtain ⟨k₀, v₀⟩ := kv
    simp only [List.map_cons, List.nodup_cons] at h
    obtain ⟨hk₀, hrest⟩ := h
    by_cases hkk : k₀ = k
    · subst hkk
      have hnone : dget rest k₀ = none := dget_eq_none_of_not_mem_keys rest k₀ hk₀
      simp [dupdate, ih _ hrest, hnone, dget, dget_dset_self]
    · have hne : k ≠ k₀ := fun h₁ => hkk h₁.symm
      simp only [dupdate, ih _ hrest, dget, if_neg hkk]
      cases hrk : dget rest k with
      | some v => simp
      | none => simp [dget_dset_ne _ _ _ _ hne]

theorem dget_notification_dict :
    ∀ k ∈ notification_keys, dget notification_dict k = some Value.null := by
  decide

theorem dget_get_notification_model (kwargs : Dict)
    (h : (kwargs.map Prod.fst).Nodup) (k : String) (hk : k ∈ notification_keys) :
    dget (get_notification_model kwargs) k = some ((dget kwargs k).getD Value.null) := by
  rw [get_notification_model, dget_dupdate _ _ _ h]
  cases hkw : dget kwargs k with
  | some v => simp
  | none => simp [dget_notification_dict k hk]

/-- C4: for every input record (any subset of the wire fields, a record
having no duplicate keys), the normalized record returned by
`get_notification_model` binds every key of the fixed twenty-key set: a key
absent from the input is mapped to the null sentinel and a key present in
the input is mapped to the input's value, so no key lookup on the normalized
record can fail. -/
theorem get_notification_model_complete (kwargs : Dict)
    (h : (kwargs.map Prod.fst).Nodup) :
    ∀ k ∈ notification_keys,
      dget (get_notification_model kwargs) k = some ((dget kwargs k).getD Value.null) :=
  fun k hk => dget_get_notification_model kwargs h k hk

/-- Witness for C4 at a concrete two-field record: the absent key `title`
is null and the present key `message` keeps its value. -/
theorem get_notification_model_complete_witness :
    dget (get_notification_model [("id", Value.int 3), ("message", Value.str "ping a")]) "title"
        = some Value.null
    ∧ dget (get_notification_model [("id", Value.int 3), ("message", Value.str "ping a")]) "message"
        = some (Value.str "ping a") := by
  constructor
  · have h := get_notification_model_complete
      [("id", Value.int 3), ("message", Value.str "ping a")] (by decide) "title" (by decide)
    rw [h]
    decide
  · have h := get_notification_model_complete
      [("id", Value.int 3), ("message", Value.str "ping a")] (by decide) "message" (by decide)
    rw [h]
    decide

end Pushover

/-! ## The websocket login frame and the dispatcher's unknown-frame handling -/

namespace Pushover

/-- C8: for a client whose `device_id` and `secret` fields are both set
(non-empty), `get_websocket_login_string` (the realtime login frame builder)
returns exactly `login:<device_id>:<secret>\n`; when either field is unset
the call raises instead of returning a frame. -/
theorem get_websocket_login_string_spec (self : PushoverOpenClient) :
    self.get_websocket_login_string none none =
      if self.device_id = "" ∨ self.secret = "" then
        Except.error (PyErr.exception "Credentials are not loaded.")
      else
        Except.ok ("login:" ++ self.device_id ++ ":" ++ self.secret ++ "\n") := rfl

/-- C7: an inbound frame outside the five-entry dispatch table produces no
reaction and no exception: the dispatcher invokes none of the mapped methods
(so no session-manager call, no registry dispatch, no state change). -/
theorem on_message_unknown_ignored (message : String)
    (h : message ∉ PushoverOpenClientRealTime.pushover_websocket_server_commands.map Prod.fst) :
    PushoverOpenClientRealTime._on_message message = Except.ok [] := by
  have hnone := dget_eq_none_of_not_mem_keys _ _ h
  simp [PushoverOpenClientRealTime._on_message, hnone, PushoverOpenClientRealTime.DEBUG]

/-- Witness for C7 at the concrete unknown frame `"Z"`. -/
theorem on_message_unknown_ignored_witness :
    PushoverOpenClientRealTime._on_message "Z" = Except.ok [] :=
  on_message_unknown_ignored "Z" (by decide)

/-! ## Lemmas about the Python max over store keys -/

theorem le_foldl_max (l : List Int) (a : Int) : a ≤ l.foldl max a := by
  induction l generalizing a with
  | nil => simp
  | cons x xs ih =>
    simp only [List.foldl_cons]
    exact le_trans (le_max_left a x) (ih (max a x))

theorem foldl_max_le_of_mem (l : List Int) (a x : Int) (h : x ∈ l) :
    x ≤ l.foldl max a := by
  induction l generalizing a with
  | nil => simp at h
  | cons y ys ih =>
    simp only [List.foldl_cons]
    rcases List.mem_cons.mp h with rfl | h₂
    · exact le_trans (le_max_right a x) (le_foldl_max ys (max a x))
    · exact ih _ h₂

theorem foldl_max_mem (l : List Int) (a : Int) :
    l.foldl max a = a ∨ l.foldl max a ∈ l := by
  induction l generalizing a with
  | nil => simp
  | cons y ys ih =>
    simp only [List.foldl_cons]
    rcases ih (max a y) with h | h
    · rcases max_choice a y with hm | hm
      · left
        rw [h, hm]
      · right
        rw [h, hm]
        exact List.mem_cons_self y ys
    · right
      exact List.mem_cons_of_mem _ h

theorem pyMax_spec (l : List Int) (m : Int)
    (h : PushoverOpenClient.pyMax l = some m) : m ∈ l ∧ ∀ x ∈ l, x ≤ m := by
  cases l with
  | nil => simp [PushoverOpenClient.pyMax] at h
  | cons x xs =>
    simp only [PushoverOpenClient.pyMax, Option.some.injEq] at h
    subst h
    constructor
    · rcases foldl_max_mem xs x with h | h
      · rw [h]
        exact List.mem_cons_self x xs
      · exact List.mem_cons_of_mem _ h
    · intro y hy
      rcases List.mem_cons.mp hy with rfl | hy₂
      · exact le_foldl_max xs y
      · exact foldl_max_le_of_mem xs x y hy₂

/-- C5: `get_highest_message_id` returns the none sentinel (not an error)
when the store is empty; otherwise it returns the maximum id among the
store's keys (recording it in `highest_message_id`); and with
`redownload=true` it performs the download first and then behaves as with
`redownload=false` on the resulting state. -/
theorem get_highest_message_id_spec (self : PushoverOpenClient) (data : DownloadData) :
    (self.messages = [] →
      self.get_highest_message_id false data = Except.ok (self, none))
    ∧ (self.messages ≠ [] →
      ∃ m, self.get_highest_message_id false data
            = Except.ok ({ self with highest_message_id := some m }, some m)
        ∧ m ∈ self.messages.map Prod.fst
        ∧ ∀ k ∈ self.messages.map Prod.fst, k ≤ m)
    ∧ (self.get_highest_message_id true data
        = self.download_messages none none data >>= fun p =>
            p.1.get_highest_message_id false data) := by
  refine ⟨?_, ?_, ?_⟩
  · intro hempty
    simp [PushoverOpenClient.get_highest_message_id, hempty, exceptPure_def, exceptBind_ok]
  · intro hne
    cases hm : PushoverOpenClient.pyMax (self.messages.map Prod.fst) with
    | none =>
      cases hmsg : self.messages with
      | nil => exact absurd hmsg hne
      | cons p rest =>
        rw [hmsg] at hm
        simp [PushoverOpenClient.pyMax] at hm
    | some m =>
      refine ⟨m, ?_, (pyMax_spec _ _ hm).1, (pyMax_spec _ _ hm).2⟩
      have hie : self.messages.isEmpty = false := by
        cases hmsg : self.messages with
        | nil => exact absurd hmsg hne
        | cons p rest => simp [hmsg]
      simp only [PushoverOpenClient.get_highest_message_id, hie, hm,
            exceptPure_def, exceptBind_ok, Bool.false_eq_true, if_false, if_neg]
  · cases hd : self.download_messages none none data with
    | error e =>
      simp [PushoverOpenClient.get_highest_message_id, hd, exceptBind_error]
    | ok p =>
      obtain ⟨self₁, r⟩ := p
      simp [PushoverOpenClient.get_highest_message_id, hd,
            exceptBind_ok, exceptPure_def]

/-- Witness for C5: on a client with an empty store the call returns the
none sentinel. -/
theorem get_highest_message_id_spec_witness :
    ({} : PushoverOpenClient).get_highest_message_id false PushoverOpenClient.no_download
      = Except.ok ({}, none) :=
  (get_highest_message_id_spec {} PushoverOpenClient.no_download).1 rfl

end Pushover

/-! ## The login two-factor flow -/

namespace Pushover

/-- C2: on an account requiring two-factor authentication with no code
available (HTTP 412 reply), `login` sets `needs_twofa`, returns the
non-secret `none` sentinel and leaves `login_errors` unset; a hard
authentication failure (non-412, `status != 1`) instead populates
`login_errors`; and a subsequent call supplying the code that receives
`status = 1` returns the secret, stores it and clears the flag. -/
theorem login_twofa_flow (self : PushoverOpenClient)
    (data412 dataOk dataFail : LoginData) (code s : String) (errs : Errors)
    (h₀ : self.needs_twofa = false)
    (h₁ : data412.status_code = 412)
    (hc : code ≠ "")
    (h₂ : dataOk.status_code ≠ 412) (h₃ : dataOk.status = 1)
    (h₄ : dataOk.secret = some s)
    (h₅ : dataFail.status_code ≠ 412) (h₆ : dataFail.status ≠ 1)
    (h₇ : dataFail.errors = some errs) :
    self.login none none none true data412
      = Except.ok ({ self with login_response_data := some data412,
                               login_errors := none,
                               needs_twofa := true }, none)
    ∧ ({ self with login_response_data := some data412,
                   login_errors := none,
                   needs_twofa := true } : PushoverOpenClient).login
          none none (some code) true dataOk
      = Except.ok ({ self with login_response_data := some dataOk,
                               login_errors := none,
                               needs_twofa := false,
                               secret := s }, some s)
    ∧ self.login none none none true dataFail
      = Except.ok ({ self with login_response_data := some dataFail,
                               login_errors := some errs,
                               needs_twofa := false }, none) := by
  have hcb : (code == "") = false := beq_eq_false_iff_ne.mpr hc
  refine ⟨?_, ?_, ?_⟩
  · simp [PushoverOpenClient.login, h₀, h₁, pyFalsyStrOpt,
          exceptPure_def, exceptBind_ok]
  · simp [PushoverOpenClient.login, h₂, h₃, h₄, hcb, pyFalsyStrOpt,
          exceptPure_def, exceptBind_ok]
  · simp [PushoverOpenClient.login, h₀, h₅, h₆, h₇, pyFalsyStrOpt,
          exceptPure_def, exceptBind_ok]

/-- Witness for C2: the concrete 412 reply on a fresh client sets the flag,
returns no secret and leaves the errors field unset. -/
theorem login_twofa_flow_witness :
    ({} : PushoverOpenClient).login none none none true
        { status_code := 412, status := 0, secret := none, errors := none }
      = Except.ok ({ login_response_data :=
                       some { status_code := 412, status := 0,
                              secret := none, errors := none },
                     login_errors := none,
                     needs_twofa := true }, none) :=
  (login_twofa_flow {}
      { status_code := 412, status := 0, secret := none, errors := none }
      { status_code := 200, status := 1, secret := some "s3cr3t", errors := none }
      { status_code := 200, status := 0, secret := none,
        errors := some (Errors.list ["email and password are not valid"]) }
      "123456" "s3cr3t" (Errors.list ["email and password are not valid"])
      rfl rfl (by decide) (by decide) rfl rfl (by decide) (by decide) rfl).1

end Pushover

/-! ## The delete-all-messages frame behaviour -/

namespace Pushover

theorem ghmi_false_empty (self : PushoverOpenClient) (data : DownloadData)
    (h : self.messages = []) :
    self.get_highest_message_id false data = Except.ok (self, none) := by
  simp [PushoverOpenClient.get_highest_message_id, h, exceptPure_def, exceptBind_ok]

theorem ghmi_false_nonempty (self : PushoverOpenClient) (data : DownloadData) (m : Int)
    (hm : PushoverOpenClient.pyMax (self.messages.map Prod.fst) = some m) :
    self.get_highest_message_id false data
      = Except.ok ({ self with highest_message_id := some m }, some m) := by
  have hie : self.messages.isEmpty = false := by
    cases hmsg : self.messages with
    | nil =>
      rw [hmsg] at hm
      simp [PushoverOpenClient.pyMax] at hm
    | cons p rest => simp [hmsg]
  simp only [PushoverOpenClient.get_highest_message_id, hie, hm,
        exceptPure_def, exceptBind_ok, Bool.false_eq_true, if_false, if_neg]

/-- C1 (amended): a successful `delete_all_messages` leaves the local store
unchanged — it performs only the server-side acknowledgement and removes no
entries, of any id; the explicit truthy `last_message_id` is sent as given,
and when it is omitted the payload id is computed, before the request is
issued, as the maximum id currently in the store (the Python-`False`
sentinel when the store is empty). -/
theorem delete_all_messages_frame (self : PushoverOpenClient)
    (last_message_id : Option Int) (data : ApiData)
    (h₁ : data.status = 1) :
    ∃ self₁ payload,
      self.delete_all_messages none none last_message_id data
        = Except.ok (self₁, true, payload)
      ∧ self₁.messages = self.messages
      ∧ (pyFalsyIntOpt last_message_id = false → payload.message = last_message_id)
      ∧ (pyFalsyIntOpt last_message_id = true → self.messages ≠ [] →
          ∃ m, payload.message = some m
            ∧ m ∈ self.messages.map Prod.fst
            ∧ ∀ k ∈ self.messages.map Prod.fst, k ≤ m)
      ∧ (pyFalsyIntOpt last_message_id = true → self.messages = [] →
          payload.message = none) := by
  by_cases hf : pyFalsyIntOpt last_message_id = true
  · by_cases hne : self.messages = []
    · refine ⟨{ self with update_highest_message_response_data := some data,
                          update_highest_message_errors := none },
              { message := none, secret := self.secret }, ?_, rfl, ?_, ?_, ?_⟩
      · simp [PushoverOpenClient.delete_all_messages, hf,
              ghmi_false_empty self _ hne, h₁,
              PushoverOpenClient._get_delete_messages_payload, pyOr,
              exceptPure_def, exceptBind_ok]
      · intro h
        rw [hf] at h
        cases h
      · intro _ h
        exact absurd hne h
      · intro _ _
        rfl
    · obtain ⟨m, hm⟩ :
          ∃ m, PushoverOpenClient.pyMax (self.messages.map Prod.fst) = some m := by
        cases hmsg : self.messages with
        | nil => exact absurd hmsg hne
        | cons p rest =>
          exact ⟨(rest.map Prod.fst).foldl max p.1,
                 by simp [hmsg, PushoverOpenClient.pyMax]⟩
      refine ⟨{ self with highest_message_id := some m,
                          update_highest_message_response_data := some data,
                          update_highest_message_errors := none },
              { message := some m, secret := self.secret }, ?_, rfl, ?_, ?_, ?_⟩
      · simp [PushoverOpenClient.delete_all_messages, hf,
              ghmi_false_nonempty self _ m hm, h₁,
              PushoverOpenClient._get_delete_messages_payload, pyOr,
              exceptPure_def, exceptBind_ok]
      · intro h
        rw [hf] at h
        cases h
      · intro _ _
        exact ⟨m, rfl, (pyMax_spec _ _ hm).1, (pyMax_spec _ _ hm).2⟩
      · intro _ h
        exact absurd h hne
  · have hf₂ : pyFalsyIntOpt last_message_id = false := by
      cases h : pyFalsyIntOpt last_message_id with
      | true => exact absurd h hf
      | false => rfl
    refine ⟨{ self with update_highest_message_response_data := some data,
                        update_highest_message_errors := none },
            { message := last_message_id, secret := self.secret }, ?_, rfl, ?_, ?_, ?_⟩
    · simp [PushoverOpenClient.delete_all_messages, hf₂, h₁,
            PushoverOpenClient._get_delete_messages_payload, pyOr,
            exceptPure_def, exceptBind_ok]
    · intro _
      rfl
    · intro h
      rw [hf₂] at h
      cases h
    · intro h
      rw [hf₂] at h
      cases h

/-- C1 counterexample: with local store `{1 ↦ message}`, explicit
`last_message_id = 5` and a successful reply, the call returns success yet
the entry with id `1 ≤ 5` is still present in the local store —
`delete_all_messages` removes no local entries. -/
theorem delete_all_messages_counterexample :
    ({ messages := [(1, [("id", Value.int 1)])], device_id := "d1", secret := "s1" }
        : PushoverOpenClient).delete_all_messages none none (some 5)
        { status := 1, errors := none }
      = Except.ok
          ({ messages := [(1, [("id", Value.int 1)])], device_id := "d1",
             secret := "s1",
             update_highest_message_response_data :=
               some { status := 1, errors := none } },
           true, { message := some 5, secret := "s1" })
    ∧ ((1 : Int), ([("id", Value.int 1)] : Dict)) ∈
        ([(1, [("id", Value.int 1)])] : List (Int × Dict))
    ∧ (1 : Int) ≤ 5 :=
  ⟨rfl, by decide, by decide⟩

/-- Witness for C1 (amended) at a concrete client with an omitted
`last_message_id`: the call succeeds and the store survives unchanged. -/
theorem delete_all_messages_frame_witness :
    ∃ p, ({ messages := [(3, []), (7, [])], secret := "s" }
          : PushoverOpenClient).delete_all_messages none none none
          { status := 1, errors := none } = Except.ok p := by
  obtain ⟨self₁, payload, h, -⟩ :=
    delete_all_messages_frame
      ({ messages := [(3, []), (7, [])], secret := "s" } : PushoverOpenClient)
      none { status := 1, errors := none } rfl
  exact ⟨_, h⟩

end Pushover

/-! ## The credentials file round trip -/

namespace Pushover

/-- C9 (amended): for every credential state whose `email` and `password`
are non-empty, writing the credentials file and loading it round-trips
exactly the fields that were non-empty at write time: the written record
contains only those fields (no null or empty placeholders), and after a
reload (into any prior state `other`) each written field equals its value at
write time while absent optional fields leave the prior values untouched.
(For states with an empty `email` or `password` the reload raises `KeyError`
instead — see the counterexample.) -/
theorem credentials_roundtrip (self other : PushoverOpenClient)
    (he : self.email ≠ "") (hp : self.password ≠ "") :
    dget self.write_credentials_file "email" = some (Value.str self.email)
    ∧ dget self.write_credentials_file "password" = some (Value.str self.password)
    ∧ dget self.write_credentials_file "secret"
        = (if self.secret = "" then none else some (Value.str self.secret))
    ∧ dget self.write_credentials_file "device_id"
        = (if self.device_id = "" then none else some (Value.str self.device_id))
    ∧ ∃ self₁,
        other.load_from_credentials_file (some self.write_credentials_file)
          = Except.ok self₁
        ∧ self₁.email = self.email
        ∧ self₁.password = self.password
        ∧ self₁.secret = (if self.secret = "" then other.secret else self.secret)
        ∧ self₁.device_id
            = (if self.device_id = "" then other.device_id else self.device_id) := by
  by_cases hs : self.secret = "" <;> by_cases hd : self.device_id = ""
  · have hdict : self.write_credentials_file
        = [("email", Value.str self.email), ("password", Value.str self.password)] := by
      simp [PushoverOpenClient.write_credentials_file,
            PushoverOpenClient._get_credentials_dict, he, hp, hs, hd, dset]
    refine ⟨?_, ?_, ?_, ?_,
            ⟨{ other with email := self.email, password := self.password }, ?_,
             rfl, rfl, ?_, ?_⟩⟩ <;>
      simp [hdict, dget, hs, hd, PushoverOpenClient.load_from_credentials_file,
            exceptPure_def, exceptBind_ok]
  · have hdict : self.write_credentials_file
        = [("email", Value.str self.email), ("password", Value.str self.password),
           ("device_id", Value.str self.device_id)] := by
      simp [PushoverOpenClient.write_credentials_file,
            PushoverOpenClient._get_credentials_dict, he, hp, hs, hd, dset]
    refine ⟨?_, ?_, ?_, ?_,
            ⟨{ other with email := self.email, password := self.password,
                          device_id := self.device_id }, ?_,
             rfl, rfl, ?_, ?_⟩⟩ <;>
      simp [hdict, dget, hs, hd, PushoverOpenClient.load_from_credentials_file,
            exceptPure_def, exceptBind_ok]
  · have hdict : self.write_credentials_file
        = [("email", Value.str self.email), ("password", Value.str self.password),
           ("secret", Value.str self.secret)] := by
      simp [PushoverOpenClient.write_credentials_file,
            PushoverOpenClient._get_credentials_dict, he, hp, hs, hd, dset]
    refine ⟨?_, ?_, ?_, ?_,
            ⟨{ other with email := self.email, password := self.password,
                          secret := self.secret }, ?_,
             rfl, rfl, ?_, ?_⟩⟩ <;>
      simp [hdict, dget, hs, hd, PushoverOpenClient.load_from_credentials_file,
            exceptPure_def, exceptBind_ok]
  · have hdict : self.write_credentials_file
        = [("email", Value.str self.email), ("password", Value.str self.password),
           ("secret", Value.str self.secret),
           ("device_id", Value.str self.device_id)] := by
      simp [PushoverOpenClient.write_credentials_file,
            PushoverOpenClient._get_credentials_dict, he, hp, hs, hd, dset]
    refine ⟨?_, ?_, ?_, ?_,
            ⟨{ other with email := self.email, password := self.password,
                          secret := self.secret, device_id := self.device_id }, ?_,
             rfl, rfl, ?_, ?_⟩⟩ <;>
      simp [hdict, dget, hs, hd, PushoverOpenClient.load_from_credentials_file,
            exceptPure_def, exceptBind_ok]

/-- C9 counterexample: a credential state with an empty `email` writes a
file without the `email` key (only the non-empty fields are written), and
reloading that very file raises `KeyError` instead of round-tripping — the
claim fails for credential states lacking `email` (or `password`). -/
theorem credentials_roundtrip_counterexample :
    ({ password := "pw", secret := "sec" } : PushoverOpenClient).write_credentials_file
      = [("password", Value.str "pw"), ("secret", Value.str "sec")]
    ∧ ({ password := "pw", secret := "sec" }
          : PushoverOpenClient).load_from_credentials_file
        (some (({ password := "pw", secret := "sec" }
          : PushoverOpenClient).write_credentials_file))
      = Except.error (PyErr.keyError "email") :=
  ⟨rfl, rfl⟩

/-- Witness for C9 (amended) at a concrete credential state. -/
theorem credentials_roundtrip_witness :
    dget ({ email := "ab", password := "pw", secret := "sec" }
        : PushoverOpenClient).write_credentials_file "email"
      = some (Value.str "ab") :=
  (credentials_roundtrip { email := "ab", password := "pw", secret := "sec" } {}
    (by decide) (by decide)).1

end Pushover

/-! ## Notification dispatch -/

namespace Pushover

theorem splitWsAux_all_space (l : List Char) (h : ∀ c ∈ l, pyIsSpace c = true) :
    splitWsAux l [] = [] := by
  induction l with
  | nil => rfl
  | cons c rest ih =>
    have hc := h c (List.mem_cons_self c rest)
    have ih₂ := ih (fun c₁ hc₁ => h c₁ (List.mem_cons_of_mem _ hc₁))
    simp [splitWsAux, hc, ih₂]

theorem process_message_eq (reg : Registries) (message : Dict)
    (s w : String) (ws : List String)
    (h1 : dget (get_notification_model message) "message" = some (Value.str s))
    (h2 : pySplit s = w :: ws) :
    PushoverOpenClientRealTime.process_message reg message = Except.ok (
      (if w ∈ reg.command_functions_registry
       then [Call.command_function w (w :: ws) (get_notification_model message)]
       else [])
      ++ (if w ∈ reg.command_parsers_registry
          then [Call.command_parser_call w (get_notification_model message)]
          else [])
      ++ (if w ∈ reg.shell_commands_registry then [Call.shell_command s] else [])
      ++ (match dget reg.shell_command_aliases_registry w with
          | some cl => [Call.shell_alias w cl]
          | none => [])
      ++ PushoverOpenClientRealTime.process_parsers reg (get_notification_model message)) := by
  have hget : dictGetItem (get_notification_model message) "message" "message"
      = Except.ok (Value.str s) := by
    simp [dictGetItem, h1]
  by_cases hcf : w ∈ reg.command_functions_registry <;>
    by_cases hcp : w ∈ reg.command_parsers_registry <;>
      by_cases hsc : w ∈ reg.shell_commands_registry <;>
        cases hal : dget reg.shell_command_aliases_registry w <;>
          simp [PushoverOpenClientRealTime.process_message,
                PushoverOpenClientRealTime.process_command_function,
                PushoverOpenClientRealTime.process_parser_command,
                PushoverOpenClientRealTime.process_shell_command,
                PushoverOpenClientRealTime.process_shell_alias,
                hget, valueSplit, h2, listGetItem, hcf, hcp, hsc, hal,
                exceptBind_ok, exceptBind_error, exceptPure_def]

/-- C3: for every notification whose message field tokenizes to a non-empty
token list, the first whitespace-separated token is the command word used
for independent, non-exclusive registry lookups: a hit in the
command-function registry invokes the handler with the split tokens as
positional arguments plus the full normalized record as keyword argument;
every matching registry fires, not just the first; and every handler in the
generic-parser registry is invoked with the full record unconditionally. -/
theorem process_message_dispatch (reg : Registries) (message : Dict)
    (s w : String) (ws : List String)
    (hnd : (message.map Prod.fst).Nodup)
    (hmsg : dget message "message" = some (Value.str s))
    (h2 : pySplit s = w :: ws) :
    ∃ calls, PushoverOpenClientRealTime.process_message reg message = Except.ok calls
      ∧ (w ∈ reg.command_functions_registry →
          Call.command_function w (w :: ws) (get_notification_model message) ∈ calls)
      ∧ (w ∈ reg.command_parsers_registry →
          Call.command_parser_call w (get_notification_model message) ∈ calls)
      ∧ (w ∈ reg.shell_commands_registry → Call.shell_command s ∈ calls)
      ∧ (∀ cl, dget reg.shell_command_aliases_registry w = some cl →
          Call.shell_alias w cl ∈ calls)
      ∧ (∀ name ∈ reg.parsers_registry,
          Call.parser_call name (get_notification_model message) ∈ calls) := by
  have h1 : dget (get_notification_model message) "message" = some (Value.str s) := by
    have h₃ := dget_get_notification_model message hnd "message" (by decide)
    rw [h₃, hmsg]
    rfl
  refine ⟨_, process_message_eq reg message s w ws h1 h2, ?_, ?_, ?_, ?_, ?_⟩
  · intro h
    simp [h, List.mem_append]
  · intro h
    simp [h, List.mem_append]
  · intro h
    simp [h, List.mem_append]
  · intro cl h
    simp [h, List.mem_append]
  · intro name h
    simp only [List.mem_append, PushoverOpenClientRealTime.process_parsers,
               List.mem_map]
    exact Or.inr ⟨name, h, rfl⟩

/-- Witness for C3: message `"ping arg1 arg2"` with `ping` registered as a
command function and a generic parser `p1` registered fires both. -/
theorem process_message_dispatch_witness :
    ∃ calls,
      PushoverOpenClientRealTime.process_message
        { command_functions_registry := ["ping"], command_parsers_registry := [],
          parsers_registry := ["p1"], shell_commands_registry := [],
          shell_command_aliases_registry := [] }
        [("message", Value.str "ping arg1 arg2")]
        = Except.ok calls
      ∧ Call.command_function "ping" ["ping", "arg1", "arg2"]
          (get_notification_model [("message", Value.str "ping arg1 arg2")]) ∈ calls
      ∧ Call.parser_call "p1"
          (get_notification_model [("message", Value.str "ping arg1 arg2")]) ∈ calls := by
  obtain ⟨calls, h, hcf, -, -, -, hp⟩ :=
    process_message_dispatch
      { command_functions_registry := ["ping"], command_parsers_registry := [],
        parsers_registry := ["p1"], shell_commands_registry := [],
        shell_command_aliases_registry := [] }
      [("message", Value.str "ping arg1 arg2")]
      "ping arg1 arg2" "ping" ["arg1", "arg2"]
      (by decide) (by decide) (by decide)
  exact ⟨calls, h, hcf (by decide), hp "p1" (by decide)⟩

/-- C6: a notification whose message field is the null sentinel (absent on
the wire or explicitly null) or a string with no non-whitespace characters
makes `process_message` raise at tokenization (`AttributeError` on
`None.split()`, `IndexError` on `[][0]`) before any registry is consulted
or any handler invoked: no safe branch exists for this input shape. -/
theorem process_message_crashes_on_empty (reg : Registries) (message : Dict)
    (hnd : (message.map Prod.fst).Nodup) :
    ((dget message "message" = none ∨ dget message "message" = some Value.null) →
      PushoverOpenClientRealTime.process_message reg message
        = Except.error PyErr.attributeError)
    ∧ (∀ s, dget message "message" = some (Value.str s) →
        (∀ c ∈ s.data, pyIsSpace c = true) →
        PushoverOpenClientRealTime.process_message reg message
          = Except.error PyErr.indexError) := by
  have h₃ := dget_get_notification_model message hnd "message" (by decide)
  constructor
  · intro h
    have h1 : dget (get_notification_model message) "message" = some Value.null := by
      rcases h with h | h <;> rw [h₃, h] <;> rfl
    simp [PushoverOpenClientRealTime.process_message, dictGetItem, h1,
          valueSplit, exceptBind_ok, exceptBind_error]
  · intro s hs hws
    have h1 : dget (get_notification_model message) "message"
        = some (Value.str s) := by
      rw [h₃, hs]
      rfl
    have hsplit : pySplit s = [] := splitWsAux_all_space s.data hws
    simp [PushoverOpenClientRealTime.process_message, dictGetItem, h1,
          valueSplit, hsplit, listGetItem, exceptBind_ok, exceptBind_error]

/-- Witness for C6: a record without a message field raises
`AttributeError`; a whitespace-only message raises `IndexError`. -/
theorem process_message_crashes_on_empty_witness :
    PushoverOpenClientRealTime.process_message
      { command_functions_registry := ["ping"], command_parsers_registry := [],
        parsers_registry := ["p1"], shell_commands_registry := [],
        shell_command_aliases_registry := [] }
      [("title", Value.str "t")]
      = Except.error PyErr.attributeError
    ∧ PushoverOpenClientRealTime.process_message
      { command_functions_registry := ["ping"], command_parsers_registry := [],
        parsers_registry := ["p1"], shell_commands_registry := [],
        shell_command_aliases_registry := [] }
      [("message", Value.str "  ")]
      = Except.error PyErr.indexError := by
  constructor
  · exact (process_message_crashes_on_empty _ _ (by decide)).1 (Or.inl (by decide))
  · exact (process_message_crashes_on_empty _ _ (by decide)).2 "  " (by decide) (by decide)

end Pushover

/-! ## The synthesized device name -/

namespace Pushover

theorem digits_length_le (n k : Nat) (h : n < 10 ^ k) :
    (Nat.digits 10 n).length ≤ k := by
  rcases Nat.eq_zero_or_pos n with rfl | hn
  · simp
  · have hne : n ≠ 0 := Nat.pos_iff_ne_zero.mp hn
    rw [Nat.digits_len 10 n (by norm_num) hne]
    have hlog := (Nat.lt_pow_iff_log_lt (by norm_num : (1:Nat) < 10) hne).mp h
    omega

theorem decimalRepr_length_le (n k : Nat) (hk : 1 ≤ k) (h : n < 10 ^ k) :
    (decimalRepr n).length ≤ k := by
  rw [decimalRepr]
  by_cases h0 : n = 0
  · rw [if_pos h0]
    have h1 : ("0" : String).length = 1 := rfl
    omega
  · rw [if_neg h0]
    have h₁ : (String.mk ((Nat.digits 10 n).reverse.map (fun d => Char.ofNat (48 + d)))).length
        = ((Nat.digits 10 n).reverse.map (fun d => Char.ofNat (48 + d))).length := rfl
    rw [h₁, List.length_map, List.length_reverse]
    exact digits_length_le n k h

theorem pad2_length_le (n : Nat) (h : n < 100) : (pad2 n).length ≤ 2 := by
  by_cases h10 : n < 10
  · rw [pad2, if_pos h10, String.length_append]
    have h1 : (decimalRepr n).length ≤ 1 := by
      apply decimalRepr_length_le n 1 le_rfl
      simpa using h10
    have h0 : ("0" : String).length = 1 := rfl
    omega
  · rw [pad2, if_neg h10]
    apply decimalRepr_length_le n 2 (by omega)
    have h2 : (10 : Nat) ^ 2 = 100 := by norm_num
    omega

theorem decimalRepr_chars (n : Nat) :
    ∀ c ∈ (decimalRepr n).data, allowedDeviceNameChar c = true := by
  rw [decimalRepr]
  by_cases h0 : n = 0
  · rw [if_pos h0]
    intro c hc
    have h1 : ("0" : String).data = ['0'] := rfl
    rw [h1] at hc
    simp at hc
    subst hc
    rfl
  · rw [if_neg h0]
    intro c hc
    have h1 : (String.mk ((Nat.digits 10 n).reverse.map (fun d => Char.ofNat (48 + d)))).data
        = (Nat.digits 10 n).reverse.map (fun d => Char.ofNat (48 + d)) := rfl
    rw [h1] at hc
    obtain ⟨d, hd, rfl⟩ := List.mem_map.mp hc
    have hd₂ : d ∈ Nat.digits 10 n := List.mem_reverse.mp hd
    have hd10 : d < 10 := Nat.digits_lt_base (by norm_num) hd₂
    interval_cases d <;> decide

theorem pad2_chars (n : Nat) :
    ∀ c ∈ (pad2 n).data, allowedDeviceNameChar c = true := by
  rw [pad2]
  by_cases h10 : n < 10
  · rw [if_pos h10]
    intro c hc
    rw [String.data_append] at hc
    rcases List.mem_append.mp hc with hc | hc
    · have h1 : ("0" : String).data = ['0'] := rfl
      rw [h1] at hc
      simp at hc
      subst hc
      rfl
    · exact decimalRepr_chars n c hc
  · rw [if_neg h10]
    exact decimalRepr_chars n

/-- C10: calling `register_device` without a device name synthesizes the
name deterministically from the current timestamp via
`generate_new_device_name`; for every valid timestamp the synthesized name
has length at most 25 and consists only of characters in `[A-Za-z0-9_-]`. -/
theorem generate_new_device_name_valid (now : PyDateTime)
    (hy : now.year ≤ 9999) (hm : now.month ≤ 12) (hd : now.day ≤ 31)
    (hh : now.hour ≤ 23) (hmin : now.minute ≤ 59) (hs : now.second ≤ 59) :
    register_device_effective_name none now = generate_new_device_name now
    ∧ (generate_new_device_name now).length ≤ 25
    ∧ ∀ c ∈ (generate_new_device_name now).data, allowedDeviceNameChar c = true := by
  have hyl : (decimalRepr now.year).length ≤ 4 := by
    apply decimalRepr_length_le now.year 4 (by omega)
    have h4 : (10 : Nat) ^ 4 = 10000 := by norm_num
    omega
  have hml := pad2_length_le now.month (by omega)
  have hdl := pad2_length_le now.day (by omega)
  have hhl := pad2_length_le now.hour (by omega)
  have hminl := pad2_length_le now.minute (by omega)
  have hsl := pad2_length_le now.second (by omega)
  refine ⟨rfl, ?_, ?_⟩
  · rw [generate_new_device_name, strftimeCompact]
    simp only [String.length_append]
    have h7 : ("python-" : String).length = 7 := rfl
    have h1 : ("_" : String).length = 1 := rfl
    omega
  · intro c hc
    rw [generate_new_device_name, strftimeCompact] at hc
    simp only [String.data_append, List.mem_append] at hc
    have hpy : ∀ c₁ ∈ ("python-" : String).data, allowedDeviceNameChar c₁ = true := by
      decide
    have hus : ∀ c₁ ∈ ("_" : String).data, allowedDeviceNameChar c₁ = true := by
      decide
    rcases hc with hc | ((((((hc | hc) | hc) | hc) | hc) | hc) | hc)
    · exact hpy c hc
    · exact decimalRepr_chars now.year c hc
    · exact pad2_chars now.month c hc
    · exact pad2_chars now.day c hc
    · exact hus c hc
    · exact pad2_chars now.hour c hc
    · exact pad2_chars now.minute c hc
    · exact pad2_chars now.second c hc

/-- Witness for C10 at the concrete timestamp 2023-12-25 13:04:05. -/
theorem generate_new_device_name_valid_witness :
    register_device_effective_name none
        { year := 2023, month := 12, day := 25, hour := 13, minute := 4, second := 5 }
      = generate_new_device_name
        { year := 2023, month := 12, day := 25, hour := 13, minute := 4, second := 5 }
    ∧ (generate_new_device_name
        { year := 2023, month := 12, day := 25, hour := 13, minute := 4, second := 5 }).length
      ≤ 25 :=
  ⟨(generate_new_device_name_valid _ (by decide) (by decide) (by decide)
      (by decide) (by decide) (by decide)).1,
   (generate_new_device_name_valid _ (by decide) (by decide) (by decide)
      (by decide) (by decide) (by decide)).2.1⟩

end Pushover
